import Mathlib

/-!
Shallow embedding of the heart-disease prediction app (`src/app.py`).

The app is a single script: at startup it checks that `heart.csv` exists,
loads it, fits a `StandardScaler` and a `LogisticRegression` on the data,
and then, per button click, assembles a 13-value patient row from the form
widgets, scales it with the fitted scaler, predicts, and displays a
classification with a confidence percentage.

The numeric pipeline is embedded with exact arithmetic: feature values and
column statistics are rationals, the scale (standard deviation) and the
logistic sigmoid live in ℝ.  The library calls (`StandardScaler`,
`LogisticRegression`) are embedded with their actual semantics:
  * `StandardScaler` stores per-column mean and `scale_ = sqrt(var)`,
    where a zero scale is replaced by 1 (`_handle_zeros_in_scale`);
    `transform` computes `(x - mean_) / scale_` from the stored state.
  * `LogisticRegression.fit` raises when the label vector has fewer than
    two distinct classes; the iterative solver itself is abstracted as a
    parameter since the spec fixes only the shape of the decision function.
  * `predict` returns class 1 exactly when the decision function is
    strictly positive; `predict_proba`'s positive-class entry is the
    sigmoid of the decision function.
-/

namespace HeartApp

/-! ## Data model: the training matrix and per-column statistics -/

/-- The training feature matrix `X` (rows × columns), rational entries. -/
structure DataMatrix where
  nrows : ℕ
  entry : ℕ → ℕ → ℚ

/-- Arithmetic mean of column `j` across all rows (population mean). -/
def colMean (M : DataMatrix) (j : ℕ) : ℚ :=
  (∑ i in Finset.range M.nrows, M.entry i j) / (M.nrows : ℚ)

/-- Population variance of column `j` (ddof = 0, as sklearn uses). -/
def colVar (M : DataMatrix) (j : ℕ) : ℚ :=
  (∑ i in Finset.range M.nrows, (M.entry i j - colMean M j) ^ 2) / (M.nrows : ℚ)

/-- Population standard deviation of column `j`. -/
noncomputable def colStd (M : DataMatrix) (j : ℕ) : ℝ :=
  Real.sqrt ((colVar M j : ℚ) : ℝ)

/-! ## StandardScaler -/

/-- Fitted scaler state: per-column `mean_` and `scale_`, as stored by
`StandardScaler.fit`. -/
structure ScalerState where
  mean_ : ℕ → ℚ
  scale_ : ℕ → ℝ

namespace StandardScaler

/-- Embeds `StandardScaler().fit(X)`: stores the column means and
`scale_ = sqrt(var)`, with a zero standard deviation replaced by 1
(sklearn's `_handle_zeros_in_scale`). -/
noncomputable def fit (M : DataMatrix) : ScalerState :=
  { mean_ := fun j => colMean M j
    scale_ := fun j => if colVar M j = 0 then 1 else Real.sqrt ((colVar M j : ℚ) : ℝ) }

/-- Embeds `scaler.transform(row)`: z-scores each value with the statistics stored
at fit time. -/
noncomputable def transform (st : ScalerState) (r : ℕ → ℚ) : ℕ → ℝ :=
  fun j => (((r j : ℚ) : ℝ) - ((st.mean_ j : ℚ) : ℝ)) / st.scale_ j

/-- Embeds `scaler.fit_transform(X)`, which is `fit` then `transform` of each training row
(sklearn's `fit_transform` is exactly this composition). -/
noncomputable def fit_transform (M : DataMatrix) : ℕ → ℕ → ℝ :=
  fun i => transform (fit M) (M.entry i)

end StandardScaler

/-! ## LogisticRegression -/

/-- Fitted logistic-regression state: coefficient per feature plus
intercept (`coef_`, `intercept_`), over `nFeatures` features. -/
structure LogisticRegressionModel where
  nFeatures : ℕ
  coef_ : ℕ → ℝ
  intercept_ : ℝ

/-- The linear decision function `coef_ · x + intercept_`. -/
noncomputable def decision_function (m : LogisticRegressionModel) (x : ℕ → ℝ) : ℝ :=
  (∑ j in Finset.range m.nFeatures, m.coef_ j * x j) + m.intercept_

/-- The logistic sigmoid `1 / (1 + exp (-z))` (scipy's `expit`). -/
noncomputable def sigmoid (z : ℝ) : ℝ :=
  1 / (1 + Real.exp (-z))

/-- Embeds `model.predict(x)[0]` for the binary case with classes `[0, 1]`:
sklearn returns class 1 exactly when the decision function is strictly
positive (`indices = (scores > 0)`). -/
noncomputable def predict (m : LogisticRegressionModel) (x : ℕ → ℝ) : ℕ :=
  if 0 < decision_function m x then 1 else 0

/-- Embeds `model.predict_proba(x)[0][1]`: the probability assigned to the
positive class, the sigmoid of the decision function. -/
noncomputable def predict_proba (m : LogisticRegressionModel) (x : ℕ → ℝ) : ℝ :=
  sigmoid (decision_function m x)

/-- Error raised by `LogisticRegression.fit`. -/
inductive FitError
  | insufficientClassDiversity
deriving DecidableEq

/-- Number of distinct label values in `y` (sklearn's `np.unique(y).size`). -/
def nClasses (y : List ℚ) : ℕ :=
  y.dedup.length

/-- Embeds `LogisticRegression().fit(X_scaled, y)`: sklearn raises
`ValueError` ("This solver needs samples of at least 2 classes…") when the
label vector holds fewer than two distinct classes; otherwise it runs the
iterative solver.  The solver itself is abstracted as the parameter
`solver` — the spec (§4.3) fixes only that the result's decision function
is a sigmoid of a linear combination, not its bit-for-bit value. -/
def LogisticRegression.fit (solver : (ℕ → ℕ → ℝ) → List ℚ → LogisticRegressionModel)
    (X_scaled : ℕ → ℕ → ℝ) (y : List ℚ) : Except FitError LogisticRegressionModel :=
  if 2 ≤ nClasses y then .ok (solver X_scaled y) else .error .insufficientClassDiversity

/-! ## Patient inputs (the form widgets, lines 55–104 of `app.py`) -/

/-- The "Gender" selectbox options. -/
inductive Gender | male | female
deriving DecidableEq

/-- The "Chest Pain Type" selectbox options. -/
inductive ChestPain | typicalAngina | atypicalAngina | nonAnginal | asymptomatic
deriving DecidableEq

/-- A Yes/No selectbox option (fasting blood sugar, exercise angina). -/
inductive YesNo | no | yes
deriving DecidableEq

/-- The "Resting ECG Results" selectbox options. -/
inductive RestEcg | normal | stAbnormality | lvHypertrophy
deriving DecidableEq

/-- The "Slope of Peak Exercise" selectbox options. -/
inductive SlopeCat | upsloping | flat | downsloping
deriving DecidableEq

/-- The "Thalassemia" selectbox options. -/
inductive Thal | normal | fixedDefect | reversibleDefect
deriving DecidableEq

/-- The display label of a gender selection, as in the widget options list. -/
def genderLabel : Gender → String
  | .male => "Male"
  | .female => "Female"

/-- The chest-pain options list of the source. -/
def cpOptions : List String :=
  ["Typical Angina (Heart Pain)", "Atypical Angina", "Non-anginal (Not Heart)",
   "Asymptomatic (No Pain)"]

/-- The display label of a chest-pain selection. -/
def cpLabel : ChestPain → String
  | .typicalAngina => "Typical Angina (Heart Pain)"
  | .atypicalAngina => "Atypical Angina"
  | .nonAnginal => "Non-anginal (Not Heart)"
  | .asymptomatic => "Asymptomatic (No Pain)"

/-- The display label of a Yes/No selection. -/
def yesNoLabel : YesNo → String
  | .no => "No"
  | .yes => "Yes"

/-- The resting-ECG options list of the source. -/
def restecgOptions : List String :=
  ["Normal", "ST-T Wave Abnormality", "Left Ventricular Hypertrophy"]

/-- The display label of a resting-ECG selection. -/
def restecgLabel : RestEcg → String
  | .normal => "Normal"
  | .stAbnormality => "ST-T Wave Abnormality"
  | .lvHypertrophy => "Left Ventricular Hypertrophy"

/-- The slope options list of the source. -/
def slopeOptions : List String :=
  ["Upsloping", "Flat", "Downsloping"]

/-- The display label of a slope selection. -/
def slopeLabel : SlopeCat → String
  | .upsloping => "Upsloping"
  | .flat => "Flat"
  | .downsloping => "Downsloping"

/-- The thalassemia options list of the source. -/
def thalOptions : List String :=
  ["Normal", "Fixed Defect (Permanent)", "Reversible Defect (Temporary)"]

/-- The display label of a thalassemia selection. -/
def thalLabel : Thal → String
  | .normal => "Normal"
  | .fixedDefect => "Fixed Defect (Permanent)"
  | .reversibleDefect => "Reversible Defect (Temporary)"

/-- Embeds `sex = 1 if sex_txt == "Male" else 0`. -/
def sexCode (g : Gender) : ℚ :=
  if genderLabel g = "Male" then 1 else 0

/-- Embeds `cp = [...].index(cp_txt)`. -/
def cpCode (c : ChestPain) : ℚ :=
  ((cpOptions.indexOf (cpLabel c) : ℕ) : ℚ)

/-- Embeds `fbs = 1 if fbs_txt == "Yes" else 0`. -/
def fbsCode (v : YesNo) : ℚ :=
  if yesNoLabel v = "Yes" then 1 else 0

/-- Embeds `restecg = [...].index(restecg_txt)`. -/
def restecgCode (v : RestEcg) : ℚ :=
  ((restecgOptions.indexOf (restecgLabel v) : ℕ) : ℚ)

/-- Embeds `exang = 1 if exang_txt == "Yes" else 0`. -/
def exangCode (v : YesNo) : ℚ :=
  if yesNoLabel v = "Yes" then 1 else 0

/-- Embeds `slope = [...].index(slope_txt)`. -/
def slopeCode (v : SlopeCat) : ℚ :=
  ((slopeOptions.indexOf (slopeLabel v) : ℕ) : ℚ)

/-- Embeds `thal = [...].index(thal_txt) + 1`. -/
def thalCode (v : Thal) : ℚ :=
  ((thalOptions.indexOf (thalLabel v) : ℕ) : ℚ) + 1

/-- One set of form inputs: the numeric widgets' values and the selectbox
selections, mirroring the widget variables of `app.py`. -/
structure PatientInputs where
  age : ℚ
  sex_txt : Gender
  cp_txt : ChestPain
  trestbps : ℚ
  chol : ℚ
  fbs_txt : YesNo
  restecg_txt : RestEcg
  thalach : ℚ
  exang_txt : YesNo
  oldpeak : ℚ
  slope_txt : SlopeCat
  ca : ℚ
  thal_txt : Thal

/-- The single data row of `input_df` (line 112):
`[[age, sex, cp, trestbps, chol, fbs, restecg, thalach, exang, oldpeak,
slope, ca, thal]]`. -/
def buildRow (p : PatientInputs) : List ℚ :=
  [p.age, sexCode p.sex_txt, cpCode p.cp_txt, p.trestbps, p.chol,
   fbsCode p.fbs_txt, restecgCode p.restecg_txt, p.thalach,
   exangCode p.exang_txt, p.oldpeak, slopeCode p.slope_txt, p.ca,
   thalCode p.thal_txt]

/-- A list row as a column-indexed function (position `j`, default 0). -/
def rowFun (l : List ℚ) : ℕ → ℚ :=
  fun j => l.getD j 0

/-- Modelled from the spec: the training schema — the ordered 13 feature
column names of `heart.csv` (§3/§6); the data file itself is not in the
repository, only its column order as the spec records it. -/
def feature_names : List String :=
  ["age", "sex", "cp", "trestbps", "chol", "fbs", "restecg", "thalach",
   "exang", "oldpeak", "slope", "ca", "thal"]

/-! ## The prediction button handler and display (lines 109–130) -/

/-- What one button click renders: the headline (`st.error`/`st.success`),
the confidence percentage of the `st.write` line, and the recommendation. -/
structure Displayed where
  headline : String
  confidence : ℝ
  recommendation : String

/-- The display branch on the prediction (lines 123–130). -/
noncomputable def renderResult (prediction : ℕ) (probability : ℝ) : Displayed :=
  if prediction = 1 then
    { headline := "⚠️ **HIGH RISK DETECTED**"
      confidence := probability * 100
      recommendation := "Recommendation: Please consult a cardiologist immediately." }
  else
    { headline := "✅ **PATIENT IS HEALTHY**"
      confidence := (1 - probability) * 100
      recommendation := "Recommendation: Maintain a healthy lifestyle." }

/-- One call of `scaler.transform` viewed as a state transformer: sklearn's
`transform` reads the fitted attributes and writes none, so the call
returns the output together with the unchanged scaler state. -/
noncomputable def transformCall (st : ScalerState) (r : ℕ → ℚ) :
    (ℕ → ℝ) × ScalerState :=
  (StandardScaler.transform st r, st)

/-- The process state after startup: the fitted scaler and model globals. -/
structure AppState where
  scaler : ScalerState
  model : LogisticRegressionModel

/-- The scaled input row `input_scaled` for a set of form inputs. -/
noncomputable def scaledInput (st : ScalerState) (p : PatientInputs) : ℕ → ℝ :=
  StandardScaler.transform st (rowFun (buildRow p))

/-- The body of the "ANALYZE RISK NOW" handler: build `input_df`, scale it,
predict, and render the result. -/
noncomputable def analyzeRisk (st : ScalerState) (m : LogisticRegressionModel)
    (p : PatientInputs) : Displayed :=
  let input_scaled := scaledInput st p
  let prediction := predict m input_scaled
  let probability := predict_proba m input_scaled
  renderResult prediction probability

/-- One user interaction as a state transformer: the handler reads the
fitted globals and writes none of them, so it returns the state unchanged
alongside what it displayed. -/
noncomputable def handleInteraction (s : AppState) (p : PatientInputs) :
    Displayed × AppState :=
  (analyzeRisk s.scaler s.model p, s)

/-- A whole session after startup: the displays of a sequence of button
clicks, threading the app state through every interaction. -/
noncomputable def runAll (s : AppState) : List PatientInputs → List Displayed × AppState
  | [] => ([], s)
  | p :: ps =>
      let r := handleInteraction s p
      let rest := runAll r.2 ps
      (r.1 :: rest.1, rest.2)

/-! ## Startup (lines 25–46) -/

/-- How startup ends: the missing-file branch (`st.error`, `st.warning`,
`st.stop`), the `except Exception` branch (`st.error`, `st.stop`), or a
ready process with fitted globals. -/
inductive StartupOutcome
  | missingDataset (errorMsg : String) (warningMsg : String)
  | systemError (errorMsg : String)
  | ready (s : AppState)

/-- The top-level startup flow: the `os.path.exists('heart.csv')` guard,
then the `try` block.  Loading, parsing and fitting are summarized by
`loadAndFit`, the outcome of the `try` body: any exception `e` there lands
in the `except` branch with message `f"System Error: \x7be\x7d"`. -/
def startup (heartCsvExists : Bool) (loadAndFit : Except String AppState) :
    StartupOutcome :=
  if heartCsvExists = false then
    .missingDataset "🚨 ERROR: 'heart.csv' file is missing!"
      "👉 Please drag and drop 'heart.csv' into the Files sidebar on the left."
  else
    match loadAndFit with
    | .error e => .systemError ("System Error: " ++ e)
    | .ok s => .ready s

/-- A whole process run: startup, then — only if startup reached the ready
state — the session's interactions.  `st.stop()` halts the script, so a
failed startup renders no predictions. -/
noncomputable def runProcess (heartCsvExists : Bool)
    (loadAndFit : Except String AppState) (clicks : List PatientInputs) :
    List Displayed :=
  match startup heartCsvExists loadAndFit with
  | .ready s => (runAll s clicks).1
  | _ => []

/-! ## Helper lemmas about the sigmoid -/

theorem one_add_exp_neg_pos (z : ℝ) : 0 < 1 + Real.exp (-z) := by
  positivity

theorem sigmoid_pos (z : ℝ) : 0 < sigmoid z := by
  rw [sigmoid]
  positivity

theorem sigmoid_le_one (z : ℝ) : sigmoid z ≤ 1 := by
  rw [sigmoid, div_le_one (one_add_exp_neg_pos z)]
  linarith [Real.exp_pos (-z)]

theorem half_lt_sigmoid_iff (z : ℝ) : 1 / 2 < sigmoid z ↔ 0 < z := by
  rw [sigmoid, div_lt_div_iff₀ (by norm_num : (0:ℝ) < 2) (one_add_exp_neg_pos z),
    one_mul, one_mul]
  constructor
  · intro h
    have hlt : Real.exp (-z) < 1 := by linarith
    have := Real.exp_lt_one_iff.mp hlt
    linarith
  · intro h
    have hlt : Real.exp (-z) < 1 := Real.exp_lt_one_iff.mpr (by linarith)
    linarith

theorem sigmoid_zero : sigmoid 0 = 1 / 2 := by
  rw [sigmoid, neg_zero, Real.exp_zero]
  norm_num

theorem predict_eq_one_iff (m : LogisticRegressionModel) (x : ℕ → ℝ) :
    predict m x = 1 ↔ 0 < decision_function m x := by
  by_cases h : 0 < decision_function m x <;> simp [predict, h]

theorem colVar_eq_zero_entries (M : DataMatrix) (j : ℕ) (h : colVar M j = 0) :
    ∀ i, i < M.nrows → M.entry i j = colMean M j := by
  intro i hi
  rcases Nat.eq_zero_or_pos M.nrows with h0 | hpos
  · omega
  · have hn : ((M.nrows : ℚ)) ≠ 0 := by
      exact_mod_cast Nat.pos_iff_ne_zero.mp hpos
    have hsum : (∑ k in Finset.range M.nrows, (M.entry k j - colMean M j) ^ 2) = 0 := by
      rcases div_eq_zero_iff.mp h with hs | hc
      · exact hs
      · exact absurd hc hn
    have hall := (Finset.sum_eq_zero_iff_of_nonneg
      (fun k _ => sq_nonneg (M.entry k j - colMean M j))).mp hsum
    have hz := hall i (Finset.mem_range.mpr hi)
    have := sq_eq_zero_iff.mp hz
    linarith

/-! ## Claim theorems -/

/-- C1: a constant-valued (zero-variance) training column does not make
`fit` fail; the scaler stores `scale_ = 1` for it (the declared
already-normalized policy), `fit_transform` emits exactly zero for that
column on every training row, and any later `transform` divides by the
same stored 1 — never by zero, so no NaN/Inf can arise. -/
theorem degenerate_column_policy (M : DataMatrix) (j : ℕ) (h : colVar M j = 0) :
    (StandardScaler.fit M).scale_ j = 1 ∧
    (∀ i, i < M.nrows → StandardScaler.fit_transform M i j = 0) ∧
    (∀ r : ℕ → ℚ, StandardScaler.transform (StandardScaler.fit M) r j
      = ((r j : ℚ) : ℝ) - ((colMean M j : ℚ) : ℝ)) := by
  have hscale : (StandardScaler.fit M).scale_ j = 1 := by
    simp [StandardScaler.fit, h]
  refine ⟨hscale, ?_, ?_⟩
  · intro i hi
    have hentry := colVar_eq_zero_entries M j h i hi
    simp [StandardScaler.fit_transform, StandardScaler.transform, StandardScaler.fit, h,
      hentry]
  · intro r
    simp [StandardScaler.transform, StandardScaler.fit, h]

/-- Witness for C1 at a concrete 2×1 constant matrix. -/
theorem degenerate_column_policy_witness :
    colVar ⟨2, fun _ _ => 1⟩ 0 = 0 ∧
    ((StandardScaler.fit ⟨2, fun _ _ => 1⟩).scale_ 0 = 1 ∧
     (∀ i, i < (⟨2, fun _ _ => 1⟩ : DataMatrix).nrows →
        StandardScaler.fit_transform ⟨2, fun _ _ => 1⟩ i 0 = 0) ∧
     (∀ r : ℕ → ℚ, StandardScaler.transform (StandardScaler.fit ⟨2, fun _ _ => 1⟩) r 0
        = ((r 0 : ℚ) : ℝ) - ((colMean ⟨2, fun _ _ => 1⟩ 0 : ℚ) : ℝ))) := by
  have h : colVar (⟨2, fun _ _ => 1⟩ : DataMatrix) 0 = 0 := by
    simp [colVar, colMean, Finset.sum_range_succ]
  exact ⟨h, degenerate_column_policy ⟨2, fun _ _ => 1⟩ 0 h⟩

/-- C2: `LogisticRegression.fit` fails with the insufficient-class-diversity
error exactly when the label vector has fewer than two distinct classes; in
particular a single-class dataset never silently yields a fitted model. -/
theorem fit_insufficient_class_diversity
    (solver : (ℕ → ℕ → ℝ) → List ℚ → LogisticRegressionModel)
    (X_scaled : ℕ → ℕ → ℝ) (y : List ℚ) :
    LogisticRegression.fit solver X_scaled y
      = .error .insufficientClassDiversity ↔ nClasses y < 2 := by
  by_cases h : 2 ≤ nClasses y
  all_goals simp [LogisticRegression.fit, h]
  all_goals omega

/-- C3 counterexample: at the all-zero model and row the positive-class
probability is exactly 1/2, yet `predict` returns 0 — so "label is 1 iff
probability ≥ 0.5" fails at this concrete input. -/
theorem predict_at_half_probability :
    predict ⟨13, fun _ => 0, 0⟩ (fun _ => 0) = 0 ∧
    predict_proba ⟨13, fun _ => 0, 0⟩ (fun _ => 0) = 1 / 2 ∧
    ¬ (predict ⟨13, fun _ => 0, 0⟩ (fun _ => 0) = 1 ↔
        1 / 2 ≤ predict_proba ⟨13, fun _ => 0, 0⟩ (fun _ => 0)) := by
  have hdf : decision_function ⟨13, fun _ => 0, 0⟩ (fun _ => 0) = 0 := by
    simp [decision_function]
  have hp : predict ⟨13, fun _ => 0, 0⟩ (fun _ => 0) = 0 := by
    simp [predict, hdf]
  have hq : predict_proba ⟨13, fun _ => 0, 0⟩ (fun _ => 0) = 1 / 2 := by
    rw [predict_proba, hdf, sigmoid_zero]
  refine ⟨hp, hq, fun hiff => ?_⟩
  have h1 := hiff.mpr (le_of_eq hq.symm)
  rw [hp] at h1
  exact absurd h1 (by norm_num)

/-- C3 (amended): `predict` returns 1 exactly when the positive-class
probability is strictly greater than 0.5 (at exactly 0.5 the label is 0),
and the probability always lies in [0, 1]. -/
theorem predict_strict_threshold (m : LogisticRegressionModel) (x : ℕ → ℝ) :
    (predict m x = 1 ↔ 1 / 2 < predict_proba m x) ∧
    0 ≤ predict_proba m x ∧ predict_proba m x ≤ 1 := by
  refine ⟨?_, le_of_lt (sigmoid_pos _), sigmoid_le_one _⟩
  rw [predict_eq_one_iff]
  simp only [predict_proba]
  exact (half_lt_sigmoid_iff _).symm

/-- C4: after `fit` on the training matrix, `transform` of any row is
`(value - mean) / std` with the mean and standard deviation stored at fit
time — functions of the training matrix alone, never of the transformed
row. -/
theorem transform_uses_fit_statistics (M : DataMatrix) (r : ℕ → ℚ) (j : ℕ)
    (h : colVar M j ≠ 0) :
    (StandardScaler.fit M).mean_ j = colMean M j ∧
    (StandardScaler.fit M).scale_ j = colStd M j ∧
    StandardScaler.transform (StandardScaler.fit M) r j
      = (((r j : ℚ) : ℝ) - ((colMean M j : ℚ) : ℝ)) / colStd M j := by
  refine ⟨rfl, ?_, ?_⟩
  · simp [StandardScaler.fit, colStd, h]
  · simp [StandardScaler.transform, StandardScaler.fit, colStd, h]

/-- Witness for C4 at a concrete 2×1 matrix with entries 0 and 2 and the
row that is constantly 5. -/
theorem transform_uses_fit_statistics_witness :
    colVar ⟨2, fun i _ => if i = 0 then 0 else 2⟩ 0 ≠ 0 ∧
    ((StandardScaler.fit ⟨2, fun i _ => if i = 0 then 0 else 2⟩).mean_ 0
        = colMean ⟨2, fun i _ => if i = 0 then 0 else 2⟩ 0 ∧
     (StandardScaler.fit ⟨2, fun i _ => if i = 0 then 0 else 2⟩).scale_ 0
        = colStd ⟨2, fun i _ => if i = 0 then 0 else 2⟩ 0 ∧
     StandardScaler.transform
        (StandardScaler.fit ⟨2, fun i _ => if i = 0 then 0 else 2⟩) (fun _ => 5) 0
        = ((((5 : ℚ) : ℚ) : ℝ)
            - ((colMean ⟨2, fun i _ => if i = 0 then 0 else 2⟩ 0 : ℚ) : ℝ))
          / colStd ⟨2, fun i _ => if i = 0 then 0 else 2⟩ 0) := by
  have h : colVar (⟨2, fun i _ => if i = 0 then 0 else 2⟩ : DataMatrix) 0 ≠ 0 := by
    have h1 : colVar (⟨2, fun i _ => if i = 0 then 0 else 2⟩ : DataMatrix) 0 = 1 := by
      simp [colVar, colMean, Finset.sum_range_succ]
      norm_num
    rw [h1]
    norm_num
  exact ⟨h, transform_uses_fit_statistics ⟨2, fun i _ => if i = 0 then 0 else 2⟩
    (fun _ => 5) 0 h⟩

/-- C5: the Inference Request Builder is a pure total function: the built
row has the 13 values in the training schema's column order, each
categorical selection goes to its fixed integer code (Male=1/Female=0,
list-index codes for chest pain, resting ECG and slope, Yes=1/No=0 flags,
thalassemia index+1 in 1–3), and every selection's label is found in its
options list (no error path). -/
theorem builder_codes_and_order :
    (∀ p : PatientInputs, (buildRow p).length = 13
      ∧ (buildRow p).get? (feature_names.indexOf "age") = some p.age
      ∧ (buildRow p).get? (feature_names.indexOf "sex") = some (sexCode p.sex_txt)
      ∧ (buildRow p).get? (feature_names.indexOf "cp") = some (cpCode p.cp_txt)
      ∧ (buildRow p).get? (feature_names.indexOf "trestbps") = some p.trestbps
      ∧ (buildRow p).get? (feature_names.indexOf "chol") = some p.chol
      ∧ (buildRow p).get? (feature_names.indexOf "fbs") = some (fbsCode p.fbs_txt)
      ∧ (buildRow p).get? (feature_names.indexOf "restecg")
          = some (restecgCode p.restecg_txt)
      ∧ (buildRow p).get? (feature_names.indexOf "thalach") = some p.thalach
      ∧ (buildRow p).get? (feature_names.indexOf "exang") = some (exangCode p.exang_txt)
      ∧ (buildRow p).get? (feature_names.indexOf "oldpeak") = some p.oldpeak
      ∧ (buildRow p).get? (feature_names.indexOf "slope") = some (slopeCode p.slope_txt)
      ∧ (buildRow p).get? (feature_names.indexOf "ca") = some p.ca
      ∧ (buildRow p).get? (feature_names.indexOf "thal") = some (thalCode p.thal_txt))
    ∧ (sexCode .male = 1 ∧ sexCode .female = 0)
    ∧ (cpCode .typicalAngina = 0 ∧ cpCode .atypicalAngina = 1
        ∧ cpCode .nonAnginal = 2 ∧ cpCode .asymptomatic = 3)
    ∧ (fbsCode .no = 0 ∧ fbsCode .yes = 1)
    ∧ (restecgCode .normal = 0 ∧ restecgCode .stAbnormality = 1
        ∧ restecgCode .lvHypertrophy = 2)
    ∧ (exangCode .no = 0 ∧ exangCode .yes = 1)
    ∧ (slopeCode .upsloping = 0 ∧ slopeCode .flat = 1 ∧ slopeCode .downsloping = 2)
    ∧ (thalCode .normal = 1 ∧ thalCode .fixedDefect = 2 ∧ thalCode .reversibleDefect = 3)
    ∧ (∀ t : Thal, 1 ≤ thalCode t ∧ thalCode t ≤ 3)
    ∧ (∀ c : ChestPain, cpLabel c ∈ cpOptions)
    ∧ (∀ v : RestEcg, restecgLabel v ∈ restecgOptions)
    ∧ (∀ v : SlopeCat, slopeLabel v ∈ slopeOptions)
    ∧ (∀ t : Thal, thalLabel t ∈ thalOptions) := by
  refine ⟨?_, ?_, ?_, ?_, ?_, ?_, ?_, ?_, ?_, ?_, ?_, ?_, ?_⟩
  · intro p
    exact ⟨rfl, rfl, rfl, rfl, rfl, rfl, rfl, rfl, rfl, rfl, rfl, rfl, rfl, rfl⟩
  · decide
  · decide
  · decide
  · decide
  · decide
  · decide
  · refine ⟨?_, ?_, ?_⟩
    · have h : thalOptions.indexOf (thalLabel .normal) = 0 := by decide
      norm_num [thalCode, h]
    · have h : thalOptions.indexOf (thalLabel .fixedDefect) = 1 := by decide
      norm_num [thalCode, h]
    · have h : thalOptions.indexOf (thalLabel .reversibleDefect) = 2 := by decide
      norm_num [thalCode, h]
  · intro t
    cases t
    · have h : thalOptions.indexOf (thalLabel .normal) = 0 := by decide
      norm_num [thalCode, h]
    · have h : thalOptions.indexOf (thalLabel .fixedDefect) = 1 := by decide
      norm_num [thalCode, h]
    · have h : thalOptions.indexOf (thalLabel .reversibleDefect) = 2 := by decide
      norm_num [thalCode, h]
  · intro c
    cases c <;> decide
  · intro v
    cases v <;> decide
  · intro v
    cases v <;> decide
  · intro t
    cases t <;> decide

/-- C6: what one click displays: the headline is the high-risk error line
exactly when the prediction is 1, and the confidence is
`probability * 100` for prediction 1 and `(1 - probability) * 100`
otherwise, with `probability` the pipeline's positive-class probability of
the scaled input row. -/
theorem displayed_confidence_formula (st : ScalerState) (m : LogisticRegressionModel)
    (p : PatientInputs) :
    (analyzeRisk st m p).headline
      = (if predict m (scaledInput st p) = 1 then "⚠️ **HIGH RISK DETECTED**"
         else "✅ **PATIENT IS HEALTHY**")
    ∧ (analyzeRisk st m p).confidence
      = (if predict m (scaledInput st p) = 1
         then predict_proba m (scaledInput st p) * 100
         else (1 - predict_proba m (scaledInput st p)) * 100) := by
  by_cases h : predict m (scaledInput st p) = 1 <;>
    simp [analyzeRisk, renderResult, h]

/-- C7: inference is deterministic in the fitted state: the click handler
returns the state unchanged, re-running it on the returned state displays
the identical result, and a repeated `transform` call on the same row
returns the identical output with the scaler state unchanged. -/
theorem inference_deterministic (s : AppState) (p : PatientInputs)
    (st : ScalerState) (r : ℕ → ℚ) :
    (handleInteraction s p).2 = s
    ∧ (handleInteraction ((handleInteraction s p).2) p).1 = (handleInteraction s p).1
    ∧ (transformCall st r).2 = st
    ∧ (transformCall (transformCall st r).2 r).1 = (transformCall st r).1 :=
  ⟨rfl, rfl, rfl, rfl⟩

/-- C8: when `heart.csv` is missing, startup ends in the missing-dataset
outcome with the operator-facing messages, without examining the
load-and-fit outcome at all, and the process renders no prediction; any
exception in the load/parse/fit block ends startup in the generic
system-error outcome and likewise renders no prediction. -/
theorem startup_failure_halts (loadAndFit loadAndFit' : Except String AppState)
    (clicks : List PatientInputs) (e : String) :
    startup false loadAndFit
      = .missingDataset "🚨 ERROR: 'heart.csv' file is missing!"
          "👉 Please drag and drop 'heart.csv' into the Files sidebar on the left."
    ∧ startup false loadAndFit = startup false loadAndFit'
    ∧ runProcess false loadAndFit clicks = []
    ∧ startup true (.error e) = .systemError ("System Error: " ++ e)
    ∧ runProcess true (.error e) clicks = [] :=
  ⟨rfl, rfl, rfl, rfl, rfl⟩

/-- C9: the fitted state is produced once at startup and never recomputed:
over any sequence of clicks the session's final state is the startup state,
and every click's display is computed from exactly that startup state. -/
theorem fitted_state_constant (s : AppState) (clicks : List PatientInputs) :
    (runAll s clicks).2 = s
    ∧ (runAll s clicks).1 = clicks.map (fun p => analyzeRisk s.scaler s.model p) := by
  induction clicks with
  | nil => exact ⟨rfl, rfl⟩
  | cons p ps ih =>
      refine ⟨?_, ?_⟩ <;> simp [runAll, handleInteraction, ih.1, ih.2]

/-- C10: the displayed confidence percentage is never below 50: for a
high-risk prediction it is `probability * 100` with probability strictly
above 1/2, otherwise `(1 - probability) * 100` with probability at most
1/2. -/
theorem confidence_at_least_fifty (st : ScalerState) (m : LogisticRegressionModel)
    (p : PatientInputs) :
    50 ≤ (analyzeRisk st m p).confidence := by
  by_cases h : 0 < decision_function m (scaledInput st p)
  · have h1 : predict m (scaledInput st p) = 1 := (predict_eq_one_iff _ _).mpr h
    have hq : 1 / 2 < predict_proba m (scaledInput st p) := by
      simp only [predict_proba]
      exact (half_lt_sigmoid_iff _).mpr h
    simp [analyzeRisk, renderResult, h1]
    linarith
  · have h0 : predict m (scaledInput st p) = 0 := by
      simp [predict, h]
    have hq : predict_proba m (scaledInput st p) ≤ 1 / 2 := by
      simp only [predict_proba]
      by_contra hc
      push_neg at hc
      exact h ((half_lt_sigmoid_iff _).mp hc)
    simp [analyzeRisk, renderResult, h0]
    linarith

end HeartApp
